import Mathlib

/-!
Shallow embedding of the skill-registration decorators of
`opsdroid/matchers.py` (the visible source of the repository), together
with theorems settling the specification claims about them.

Modelling conventions:
* A handler is an opaque value of an arbitrary type `H` (the source never
  inspects the callable it decorates).
* The mutable global state reached through `get_opsdroid()` is made
  explicit: every decorator becomes a function from a `World H` (the
  optional active opsdroid instance plus the log of warnings emitted so
  far) to a pair of the new world and the value the decorator returns.
* Python numeric values that may be `None` are modelled as `Option to a
  rational`; Python truthiness of such a value (with `False == 0 == 0.0`
  all falsy and numerically equal) is `pyTruthy`.
* The dynamic dictionaries appended to `opsdroid.skills` are modelled as
  a tagged record `Skill H`: one constructor of `SkillMatcher` per
  dictionary shape used by the source, keeping the source field names.
-/

/-- Python truthiness of an optional numeric argument: `none` models
`None`; a number is falsy exactly when it equals 0 (this also covers
Python `False`, which compares equal to 0). -/
def pyTruthy : Option ℚ → Bool
  | none => false
  | some q => decide (q ≠ 0)

/-- The Python expression `v or d` for an optional numeric `v` and a
numeric fallback `d`: yields `v` when `v` is truthy, else `d`. -/
def pyOrNum (v : Option ℚ) (d : ℚ) : ℚ :=
  match v with
  | none => d
  | some q => if q ≠ 0 then q else d

/-- Modelled from the spec: `REGEX_SCORE_FACTOR`, imported by the source
from `opsdroid.const` (a module not part of the visible source). The
spec fixes the default score factor of a regex matcher at 0.6. -/
def REGEX_SCORE_FACTOR : ℚ := 3 / 5

/-- The origin configuration `opsdroid.loader.current_import_config`:
the source reads its `name` entry when binding webhook routes. -/
structure Config where
  name : String
  deriving DecidableEq, Repr

/-- The `regex_setup` dictionary built by `match_regex`. -/
structure RegexSetup where
  expression : String
  case_sensitive : Bool
  score_factor : ℚ
  deriving DecidableEq, Repr

/-- The matcher-specific part of a skill dictionary: one constructor per
dictionary shape appended by the source, named after the key used. -/
inductive SkillMatcher where
  | regex (setup : RegexSetup)
  | dialogflow_action (action : String)
  | dialogflow_intent (intent : String)
  | luisai_intent (intent : String)
  | rasanlu_intent (intent : String)
  | recastai_intent (intent : String)
  | witai_intent (intent : String)
  | crontab (crontab : String) (timezone : Option String)
  | webhook (webhook : String)
  | always
  deriving DecidableEq, Repr

/-- One record of `opsdroid.skills`: the matcher configuration, the
handler reference and the origin config. -/
structure Skill (H : Type) where
  matcher : SkillMatcher
  skill : H
  config : Config
  deriving DecidableEq, Repr

/-- The closure `wrapper` built by `match_webhook`: it captures the
webhook name, the decorated handler and the origin config. Two routes
bound to equal `Wrapper` values are bound to the same invocation path. -/
structure Wrapper (H : Type) where
  webhook : String
  func : H
  config : Config
  deriving DecidableEq, Repr

/-- One route bound on `opsdroid.web_server.web_app.router`: the HTTP
method, the path and the wrapper it invokes. -/
structure Route (H : Type) where
  method : String
  path : String
  wrapper : Wrapper H
  deriving DecidableEq, Repr

/-- The mutable state of an active opsdroid instance, as touched by the
source: the current import config, the skills list, the
`webhooks_called` stats counter and the web-server routing table. -/
structure Opsdroid (H : Type) where
  current_import_config : Config
  skills : List (Skill H)
  webhooks_called : ℕ
  routes : List (Route H)
  deriving DecidableEq, Repr

/-- The world a decorator runs in: the result of `get_opsdroid()`
(`none` models a falsy result) and the warnings logged so far. -/
structure World (H : Type) where
  opsdroid : Option (Opsdroid H)
  log_warnings : List String
  deriving DecidableEq, Repr

/-- The inner `matcher` of `match_regex`, applied to a handler `func`:
when an opsdroid is active it appends one skill record built from the
`regex_setup` dictionary and returns `func`; otherwise it only returns
`func`. -/
def match_regex (regex : String) (case_sensitive : Bool)
    (score_factor : Option ℚ) {H : Type} (func : H) (w : World H) :
    World H × H :=
  match w.opsdroid with
  | none => (w, func)
  | some od =>
    let config := od.current_import_config
    let regex_setup : RegexSetup :=
      { expression := regex
        case_sensitive := case_sensitive
        score_factor := pyOrNum score_factor REGEX_SCORE_FACTOR }
    let entry : Skill H :=
      { matcher := SkillMatcher.regex regex_setup
        skill := func
        config := config }
    let od2 : Opsdroid H := { od with skills := od.skills ++ [entry] }
    ({ w with opsdroid := some od2 }, func)

/-- The deprecation warning logged by `match_apiai_action` (the
concatenated string literal of the source). -/
def apiai_action_warning : String :=
  "Api.ai is now called Dialogflow, this matcher will stop working in the future. Use match_dialogflow_action instead."

/-- The deprecation warning logged by `match_apiai_intent`. -/
def apiai_intent_warning : String :=
  "Api.ai is now called Dialogflow, this matcher will stop working in the future. Use match_dialogflow_intent instead."

/-- The deprecated alias `match_apiai_action` applied to a handler: the
factory logs the deprecation warning once (this happens when the
decorator is built, before the inner matcher runs), then the inner
matcher appends a `dialogflow_action` record when an opsdroid is
active, and returns the handler. -/
def match_apiai_action (action : String) {H : Type} (func : H)
    (w : World H) : World H × H :=
  let w1 : World H :=
    { w with log_warnings := w.log_warnings ++ [apiai_action_warning] }
  match w1.opsdroid with
  | none => (w1, func)
  | some od =>
    let config := od.current_import_config
    let entry : Skill H :=
      { matcher := SkillMatcher.dialogflow_action action
        skill := func
        config := config }
    let od2 : Opsdroid H := { od with skills := od.skills ++ [entry] }
    ({ w1 with opsdroid := some od2 }, func)

/-- The deprecated alias `match_apiai_intent` applied to a handler:
logs the deprecation warning once, appends a `dialogflow_intent`
record when an opsdroid is active, and returns the handler. -/
def match_apiai_intent (intent : String) {H : Type} (func : H)
    (w : World H) : World H × H :=
  let w1 : World H :=
    { w with log_warnings := w.log_warnings ++ [apiai_intent_warning] }
  match w1.opsdroid with
  | none => (w1, func)
  | some od =>
    let config := od.current_import_config
    let entry : Skill H :=
      { matcher := SkillMatcher.dialogflow_intent intent
        skill := func
        config := config }
    let od2 : Opsdroid H := { od with skills := od.skills ++ [entry] }
    ({ w1 with opsdroid := some od2 }, func)

/-- The inner `matcher` of `match_dialogflow_action`. -/
def match_dialogflow_action (action : String) {H : Type} (func : H)
    (w : World H) : World H × H :=
  match w.opsdroid with
  | none => (w, func)
  | some od =>
    let config := od.current_import_config
    let entry : Skill H :=
      { matcher := SkillMatcher.dialogflow_action action
        skill := func
        config := config }
    let od2 : Opsdroid H := { od with skills := od.skills ++ [entry] }
    ({ w with opsdroid := some od2 }, func)

/-- The inner `matcher` of `match_dialogflow_intent`. -/
def match_dialogflow_intent (intent : String) {H : Type} (func : H)
    (w : World H) : World H × H :=
  match w.opsdroid with
  | none => (w, func)
  | some od =>
    let config := od.current_import_config
    let entry : Skill H :=
      { matcher := SkillMatcher.dialogflow_intent intent
        skill := func
        config := config }
    let od2 : Opsdroid H := { od with skills := od.skills ++ [entry] }
    ({ w with opsdroid := some od2 }, func)

/-- The inner `matcher` of `match_luisai_intent`. -/
def match_luisai_intent (intent : String) {H : Type} (func : H)
    (w : World H) : World H × H :=
  match w.opsdroid with
  | none => (w, func)
  | some od =>
    let config := od.current_import_config
    let entry : Skill H :=
      { matcher := SkillMatcher.luisai_intent intent
        skill := func
        config := config }
    let od2 : Opsdroid H := { od with skills := od.skills ++ [entry] }
    ({ w with opsdroid := some od2 }, func)

/-- The inner `matcher` of `match_rasanlu`. -/
def match_rasanlu (intent : String) {H : Type} (func : H)
    (w : World H) : World H × H :=
  match w.opsdroid with
  | none => (w, func)
  | some od =>
    let config := od.current_import_config
    let entry : Skill H :=
      { matcher := SkillMatcher.rasanlu_intent intent
        skill := func
        config := config }
    let od2 : Opsdroid H := { od with skills := od.skills ++ [entry] }
    ({ w with opsdroid := some od2 }, func)

/-- The inner `matcher` of `match_recastai`. -/
def match_recastai (intent : String) {H : Type} (func : H)
    (w : World H) : World H × H :=
  match w.opsdroid with
  | none => (w, func)
  | some od =>
    let config := od.current_import_config
    let entry : Skill H :=
      { matcher := SkillMatcher.recastai_intent intent
        skill := func
        config := config }
    let od2 : Opsdroid H := { od with skills := od.skills ++ [entry] }
    ({ w with opsdroid := some od2 }, func)

/-- The inner `matcher` of `match_witai`. -/
def match_witai (intent : String) {H : Type} (func : H)
    (w : World H) : World H × H :=
  match w.opsdroid with
  | none => (w, func)
  | some od =>
    let config := od.current_import_config
    let entry : Skill H :=
      { matcher := SkillMatcher.witai_intent intent
        skill := func
        config := config }
    let od2 : Opsdroid H := { od with skills := od.skills ++ [entry] }
    ({ w with opsdroid := some od2 }, func)

/-- The inner `matcher` of `match_crontab`: the record additionally
stores the timezone (Python `None` modelled as `Option.none`). -/
def match_crontab (crontab : String) (timezone : Option String)
    {H : Type} (func : H) (w : World H) : World H × H :=
  match w.opsdroid with
  | none => (w, func)
  | some od =>
    let config := od.current_import_config
    let entry : Skill H :=
      { matcher := SkillMatcher.crontab crontab timezone
        skill := func
        config := config }
    let od2 : Opsdroid H := { od with skills := od.skills ++ [entry] }
    ({ w with opsdroid := some od2 }, func)

/-- The inner `matcher` of `match_webhook`: appends one skill record,
builds the `wrapper` closure (capturing the webhook name, the handler
and the config), and binds two POST routes on the web-server router,
both to that same wrapper. -/
def match_webhook (webhook : String) {H : Type} (func : H)
    (w : World H) : World H × H :=
  match w.opsdroid with
  | none => (w, func)
  | some od =>
    let config := od.current_import_config
    let entry : Skill H :=
      { matcher := SkillMatcher.webhook webhook
        skill := func
        config := config }
    let wrapper : Wrapper H :=
      { webhook := webhook, func := func, config := config }
    let od2 : Opsdroid H :=
      { od with
          skills := od.skills ++ [entry]
          routes := od.routes ++
            [{ method := "POST"
               path := "/skill/" ++ config.name ++ "/" ++ webhook
               wrapper := wrapper },
             { method := "POST"
               path := "/skill/" ++ config.name ++ "/" ++ webhook ++ "/"
               wrapper := wrapper }] }
    ({ w with opsdroid := some od2 }, func)

/-- Outcome of awaiting the decorated handler inside the webhook
wrapper: the handler either completes successfully or raises. -/
inductive HandlerOutcome where
  | ok
  | raised
  deriving DecidableEq, Repr

/-- An HTTP-style response: a status code and a JSON-style body given
as key-value pairs. -/
structure Response where
  status : ℕ
  body : List (String × String)
  deriving DecidableEq, Repr

/-- Modelled from the spec: `Web.build_response`, imported by the
source from `opsdroid.web` (a module not part of the visible source);
per the spec it constructs an HTTP-style response object (status code
plus structured body) that the HTTP-server collaborator writes back. -/
def build_response (status : ℕ) (body : List (String × String)) :
    Response :=
  { status := status, body := body }

/-- One invocation of the `wrapper` closure bound by `match_webhook`:
the wrapper first increments the `webhooks_called` stats counter, then
awaits the handler (whose behaviour at this call is abstracted by
`outcome`); when the handler completes it returns the 200 response
naming the webhook, and when the handler raises, the exception
propagates out of the wrapper and no response is produced. -/
def run_wrapper {H : Type} (wr : Wrapper H) (outcome : HandlerOutcome)
    (od : Opsdroid H) : Opsdroid H × Option Response :=
  let od1 : Opsdroid H :=
    { od with webhooks_called := od.webhooks_called + 1 }
  match outcome with
  | HandlerOutcome.ok =>
      (od1, some (build_response 200 [("called_skill", wr.webhook)]))
  | HandlerOutcome.raised => (od1, none)

/-- The argument of `match_always`: either omitted (the Python default
`None`, which is not callable) or a handler (a callable). -/
inductive AlwaysArg (H : Type) where
  | omitted
  | handler (f : H)
  deriving DecidableEq, Repr

/-- What `match_always` returns: the handler itself when the argument
was callable, or the inner matcher (to be applied later) when not. -/
inductive AlwaysRet (H : Type) where
  | handler (f : H)
  | decorator
  deriving DecidableEq, Repr

/-- The inner `matcher` of `match_always`: appends an `always` record
when an opsdroid is active and returns the handler. -/
def match_always_matcher {H : Type} (func : H) (w : World H) :
    World H × H :=
  match w.opsdroid with
  | none => (w, func)
  | some od =>
    let config := od.current_import_config
    let entry : Skill H :=
      { matcher := SkillMatcher.always
        skill := func
        config := config }
    let od2 : Opsdroid H := { od with skills := od.skills ++ [entry] }
    ({ w with opsdroid := some od2 }, func)

/-- `match_always` itself: when `callable(func)` holds it returns
`matcher(func)` (applying the inner matcher at once); otherwise it
returns the inner matcher as the decorator. -/
def match_always {H : Type} (arg : AlwaysArg H) (w : World H) :
    World H × AlwaysRet H :=
  match arg with
  | AlwaysArg.handler f =>
      let r := match_always_matcher f w
      (r.1, AlwaysRet.handler r.2)
  | AlwaysArg.omitted => (w, AlwaysRet.decorator)

/-- A concrete origin config for concrete instantiations. -/
def config0 : Config := { name := "demo" }

/-- A concrete active opsdroid instance with an empty registry, used in
concrete instantiations; the handler type is ℕ (opaque identities). -/
def od0 : Opsdroid ℕ :=
  { current_import_config := config0
    skills := []
    webhooks_called := 0
    routes := [] }

/-- A concrete wrapper value as built by match_webhook for the webhook
named "ping" under config0. -/
def wr0 : Wrapper ℕ := { webhook := "ping", func := 0, config := config0 }

/-- Claim C1: with an active opsdroid, each registration call
(match_regex, match_dialogflow_intent, match_dialogflow_action,
match_luisai_intent, match_rasanlu, match_recastai, match_witai,
match_crontab, match_webhook, match_always) appends exactly one skill
record, holding the matcher configuration, the handler reference and
the origin config, to the end of the skills list, leaves every
previously registered record unchanged, and returns the handler
unchanged. -/
theorem C1_registration_appends_one_record {H : Type} (od : Opsdroid H)
    (lg : List String) (func : H) (re : String) (cs : Bool)
    (sf : Option ℚ) (da di li ri ci wi ct : String)
    (tz : Option String) (wh : String) :
    match_regex re cs sf func ⟨some od, lg⟩ =
      (⟨some { od with skills := od.skills ++
          [⟨SkillMatcher.regex ⟨re, cs, pyOrNum sf REGEX_SCORE_FACTOR⟩,
            func, od.current_import_config⟩] }, lg⟩, func)
    ∧ match_dialogflow_action da func ⟨some od, lg⟩ =
      (⟨some { od with skills := od.skills ++
          [⟨SkillMatcher.dialogflow_action da, func,
            od.current_import_config⟩] }, lg⟩, func)
    ∧ match_dialogflow_intent di func ⟨some od, lg⟩ =
      (⟨some { od with skills := od.skills ++
          [⟨SkillMatcher.dialogflow_intent di, func,
            od.current_import_config⟩] }, lg⟩, func)
    ∧ match_luisai_intent li func ⟨some od, lg⟩ =
      (⟨some { od with skills := od.skills ++
          [⟨SkillMatcher.luisai_intent li, func,
            od.current_import_config⟩] }, lg⟩, func)
    ∧ match_rasanlu ri func ⟨some od, lg⟩ =
      (⟨some { od with skills := od.skills ++
          [⟨SkillMatcher.rasanlu_intent ri, func,
            od.current_import_config⟩] }, lg⟩, func)
    ∧ match_recastai ci func ⟨some od, lg⟩ =
      (⟨some { od with skills := od.skills ++
          [⟨SkillMatcher.recastai_intent ci, func,
            od.current_import_config⟩] }, lg⟩, func)
    ∧ match_witai wi func ⟨some od, lg⟩ =
      (⟨some { od with skills := od.skills ++
          [⟨SkillMatcher.witai_intent wi, func,
            od.current_import_config⟩] }, lg⟩, func)
    ∧ match_crontab ct tz func ⟨some od, lg⟩ =
      (⟨some { od with skills := od.skills ++
          [⟨SkillMatcher.crontab ct tz, func,
            od.current_import_config⟩] }, lg⟩, func)
    ∧ match_webhook wh func ⟨some od, lg⟩ =
      (⟨some { od with
          skills := od.skills ++
            [⟨SkillMatcher.webhook wh, func, od.current_import_config⟩],
          routes := od.routes ++
            [⟨"POST", "/skill/" ++ od.current_import_config.name ++ "/" ++ wh,
              ⟨wh, func, od.current_import_config⟩⟩,
             ⟨"POST", "/skill/" ++ od.current_import_config.name ++ "/" ++ wh ++ "/",
              ⟨wh, func, od.current_import_config⟩⟩] }, lg⟩, func)
    ∧ match_always (AlwaysArg.handler func) ⟨some od, lg⟩ =
      (⟨some { od with skills := od.skills ++
          [⟨SkillMatcher.always, func,
            od.current_import_config⟩] }, lg⟩, AlwaysRet.handler func) :=
  ⟨rfl, rfl, rfl, rfl, rfl, rfl, rfl, rfl, rfl, rfl⟩

/-- Claim C2, counterexample: at a concrete wrapper invocation whose
handler raises — an invocation that is not successful, as witnessed by
the absence of a response — the webhooks_called counter is nevertheless
incremented, refuting the only-if direction of the claim. -/
theorem C2_counterexample_failed_handler_still_counted :
    (run_wrapper wr0 HandlerOutcome.raised od0).2 = none
    ∧ (run_wrapper wr0 HandlerOutcome.raised od0).1.webhooks_called =
        od0.webhooks_called + 1 :=
  ⟨rfl, rfl⟩

/-- Claim C2 as amended: every wrapper invocation increments the
webhooks_called counter exactly once, whether or not the handler
completes successfully, because the increment happens before the
handler is awaited; the rest of the opsdroid state is untouched by the
wrapper itself. -/
theorem C2_amended_counter_incremented_per_invocation {H : Type}
    (wr : Wrapper H) (oc : HandlerOutcome) (od : Opsdroid H) :
    (run_wrapper wr oc od).1 =
      { od with webhooks_called := od.webhooks_called + 1 } := by
  cases oc <;> rfl

/-- Claim C3: for every action and intent string and every handler, the
deprecated aliases match_apiai_action and match_apiai_intent leave the
opsdroid state exactly as match_dialogflow_action and
match_dialogflow_intent do (the same skill record is registered), both
return the handler, and each alias appends exactly one deprecation
warning to the log while the current calls log nothing. -/
theorem C3_apiai_aliases_are_dialogflow_synonyms {H : Type}
    (w : World H) (func : H) (a i : String) :
    (match_apiai_action a func w).1.opsdroid =
        (match_dialogflow_action a func w).1.opsdroid
    ∧ (match_apiai_action a func w).2 = func
    ∧ (match_dialogflow_action a func w).2 = func
    ∧ (match_apiai_action a func w).1.log_warnings =
        w.log_warnings ++ [apiai_action_warning]
    ∧ (match_dialogflow_action a func w).1.log_warnings = w.log_warnings
    ∧ (match_apiai_intent i func w).1.opsdroid =
        (match_dialogflow_intent i func w).1.opsdroid
    ∧ (match_apiai_intent i func w).2 = func
    ∧ (match_dialogflow_intent i func w).2 = func
    ∧ (match_apiai_intent i func w).1.log_warnings =
        w.log_warnings ++ [apiai_intent_warning]
    ∧ (match_dialogflow_intent i func w).1.log_warnings =
        w.log_warnings := by
  obtain ⟨o, lg⟩ := w
  cases o with
  | none =>
      exact ⟨rfl, rfl, rfl, rfl, rfl, rfl, rfl, rfl, rfl, rfl⟩
  | some od =>
      exact ⟨rfl, rfl, rfl, rfl, rfl, rfl, rfl, rfl, rfl, rfl⟩

/-- Claim C4, counterexample: registering the invalid regular
expression "(" via match_regex, and the malformed cron expression
"not a cron" via match_crontab, both succeed at a concrete active
opsdroid: a record for the offending skill IS appended to the registry,
and the registration has no failure channel at all, so no
ConfigurationError is raised at registration time. -/
theorem C4_counterexample_no_registration_validation :
    (match_regex "(" true none (0 : ℕ) ⟨some od0, []⟩).1.opsdroid =
      some { od0 with skills := od0.skills ++
        [⟨SkillMatcher.regex ⟨"(", true, REGEX_SCORE_FACTOR⟩, 0,
          od0.current_import_config⟩] }
    ∧ (match_crontab "not a cron" none (0 : ℕ) ⟨some od0, []⟩).1.opsdroid =
      some { od0 with skills := od0.skills ++
        [⟨SkillMatcher.crontab "not a cron" none, 0,
          od0.current_import_config⟩] } :=
  ⟨rfl, rfl⟩

/-- Claim C4 as amended: match_regex and match_crontab perform no
validation of their expression at registration time: every string,
including an invalid regex or a malformed cron expression, is accepted,
a record holding the raw string is appended to the registry, the
handler is returned, and no error of any kind is raised (registration
is a total function with no failure outcome). -/
theorem C4_amended_registration_accepts_any_expression {H : Type}
    (od : Opsdroid H) (lg : List String) (func : H) (re : String)
    (cs : Bool) (sf : Option ℚ) (ct : String) (tz : Option String) :
    match_regex re cs sf func ⟨some od, lg⟩ =
      (⟨some { od with skills := od.skills ++
          [⟨SkillMatcher.regex ⟨re, cs, pyOrNum sf REGEX_SCORE_FACTOR⟩,
            func, od.current_import_config⟩] }, lg⟩, func)
    ∧ match_crontab ct tz func ⟨some od, lg⟩ =
      (⟨some { od with skills := od.skills ++
          [⟨SkillMatcher.crontab ct tz, func,
            od.current_import_config⟩] }, lg⟩, func) :=
  ⟨rfl, rfl⟩

/-- Claim C5: when score_factor is left as None, the registered record
stores the default REGEX_SCORE_FACTOR, which is 0.6 and not 1.0; when a
score_factor in the interval (0, 1] is supplied, the record stores
exactly the supplied value. -/
theorem C5_score_factor_default_and_supplied {H : Type}
    (od : Opsdroid H) (lg : List String) (func : H) (re : String)
    (cs : Bool) (q : ℚ) (hq0 : 0 < q) (_hq1 : q ≤ 1) :
    match_regex re cs none func ⟨some od, lg⟩ =
      (⟨some { od with skills := od.skills ++
          [⟨SkillMatcher.regex ⟨re, cs, REGEX_SCORE_FACTOR⟩, func,
            od.current_import_config⟩] }, lg⟩, func)
    ∧ REGEX_SCORE_FACTOR = 3 / 5
    ∧ REGEX_SCORE_FACTOR ≠ 1
    ∧ match_regex re cs (some q) func ⟨some od, lg⟩ =
      (⟨some { od with skills := od.skills ++
          [⟨SkillMatcher.regex ⟨re, cs, q⟩, func,
            od.current_import_config⟩] }, lg⟩, func) := by
  have hpy : pyOrNum (some q) REGEX_SCORE_FACTOR = q := by
    simp [pyOrNum, hq0.ne']
  refine ⟨rfl, rfl, by norm_num [REGEX_SCORE_FACTOR], ?_⟩
  have base : match_regex re cs (some q) func ⟨some od, lg⟩ =
      (⟨some { od with skills := od.skills ++
          [⟨SkillMatcher.regex
              ⟨re, cs, pyOrNum (some q) REGEX_SCORE_FACTOR⟩, func,
            od.current_import_config⟩] }, lg⟩, func) := rfl
  rw [hpy] at base
  exact base

/-- Witness for C5 at the concrete supplied score factor 1/2. -/
theorem C5_witness :
    match_regex "hi" true (some (1 / 2)) (0 : ℕ) ⟨some od0, []⟩ =
      (⟨some { od0 with skills := od0.skills ++
          [⟨SkillMatcher.regex ⟨"hi", true, 1 / 2⟩, 0,
            od0.current_import_config⟩] }, []⟩, 0) :=
  (C5_score_factor_default_and_supplied od0 [] 0 "hi" true (1 / 2)
    (by norm_num) (by norm_num)).2.2.2

/-- Claim C6: registering a webhook skill binds exactly two POST routes
— the path /skill/N/W and its trailing-slash variant — and both route
records hold the identical wrapper value (the same invocation path). -/
theorem C6_webhook_binds_two_post_routes {H : Type} (od : Opsdroid H)
    (lg : List String) (func : H) (wh : String) :
    (match_webhook wh func ⟨some od, lg⟩).1.opsdroid =
      some { od with
        skills := od.skills ++
          [⟨SkillMatcher.webhook wh, func, od.current_import_config⟩],
        routes := od.routes ++
          [⟨"POST", "/skill/" ++ od.current_import_config.name ++ "/" ++ wh,
            ⟨wh, func, od.current_import_config⟩⟩,
           ⟨"POST", "/skill/" ++ od.current_import_config.name ++ "/" ++ wh ++ "/",
            ⟨wh, func, od.current_import_config⟩⟩] } :=
  rfl

/-- Claim C7: a successful wrapper invocation (the handler completes
without raising) returns the response with status 200 and body binding
called_skill to the webhook name. -/
theorem C7_success_response_200_called_skill {H : Type}
    (wr : Wrapper H) (od : Opsdroid H) :
    (run_wrapper wr HandlerOutcome.ok od).2 =
      some { status := 200, body := [("called_skill", wr.webhook)] } :=
  rfl

/-- Claim C8: the catch-all matcher works with or without invocation
parentheses and the two forms are equivalent: applying match_always
directly to a handler yields the same appended record and returns the
handler, while calling it with the argument omitted performs no state
change and returns the inner matcher, whose later application to the
handler produces the identical record and returns the handler. -/
theorem C8_match_always_dual_mode {H : Type} (od : Opsdroid H)
    (lg : List String) (func : H) :
    match_always (AlwaysArg.handler func) ⟨some od, lg⟩ =
      (⟨some { od with skills := od.skills ++
          [⟨SkillMatcher.always, func, od.current_import_config⟩] }, lg⟩,
       AlwaysRet.handler func)
    ∧ match_always AlwaysArg.omitted ⟨some od, lg⟩ =
      (⟨some od, lg⟩, AlwaysRet.decorator)
    ∧ match_always_matcher func ⟨some od, lg⟩ =
      (⟨some { od with skills := od.skills ++
          [⟨SkillMatcher.always, func, od.current_import_config⟩] }, lg⟩,
       func) :=
  ⟨rfl, rfl, rfl⟩

/-- Claim C9: when get_opsdroid returns a falsy value, every
registration decorator appends nothing to any skills list, binds no web
routes, increments no counters, raises no error, and returns the
handler unchanged: the opsdroid component stays none and for the
non-deprecated decorators the whole world is untouched (the deprecated
aliases still log their warning, which is not state the claim names). -/
theorem C9_no_opsdroid_registration_is_noop {H : Type}
    (lg : List String) (func : H) (re : String) (cs : Bool)
    (sf : Option ℚ) (da di li ri ci wi ct : String)
    (tz : Option String) (wh : String) :
    match_regex re cs sf func ⟨none, lg⟩ = (⟨none, lg⟩, func)
    ∧ match_apiai_action da func ⟨none, lg⟩ =
        (⟨none, lg ++ [apiai_action_warning]⟩, func)
    ∧ match_apiai_intent di func ⟨none, lg⟩ =
        (⟨none, lg ++ [apiai_intent_warning]⟩, func)
    ∧ match_dialogflow_action da func ⟨none, lg⟩ = (⟨none, lg⟩, func)
    ∧ match_dialogflow_intent di func ⟨none, lg⟩ = (⟨none, lg⟩, func)
    ∧ match_luisai_intent li func ⟨none, lg⟩ = (⟨none, lg⟩, func)
    ∧ match_rasanlu ri func ⟨none, lg⟩ = (⟨none, lg⟩, func)
    ∧ match_recastai ci func ⟨none, lg⟩ = (⟨none, lg⟩, func)
    ∧ match_witai wi func ⟨none, lg⟩ = (⟨none, lg⟩, func)
    ∧ match_crontab ct tz func ⟨none, lg⟩ = (⟨none, lg⟩, func)
    ∧ match_webhook wh func ⟨none, lg⟩ = (⟨none, lg⟩, func)
    ∧ match_always (AlwaysArg.handler func) ⟨none, lg⟩ =
        (⟨none, lg⟩, AlwaysRet.handler func)
    ∧ match_always (AlwaysArg.omitted : AlwaysArg H) ⟨none, lg⟩ =
        (⟨none, lg⟩, AlwaysRet.decorator) :=
  ⟨rfl, rfl, rfl, rfl, rfl, rfl, rfl, rfl, rfl, rfl, rfl, rfl, rfl⟩

/-- Claim C10: a falsy numeric score_factor — Python 0, 0.0 or False,
all of which compare equal to 0 and are modelled as the value 0 — is
silently replaced by the default 0.6 in the registered record, because
the fallback tests truthiness rather than comparing against None. -/
theorem C10_falsy_score_factor_replaced_by_default {H : Type}
    (od : Opsdroid H) (lg : List String) (func : H) (re : String)
    (cs : Bool) :
    match_regex re cs (some 0) func ⟨some od, lg⟩ =
      (⟨some { od with skills := od.skills ++
          [⟨SkillMatcher.regex ⟨re, cs, REGEX_SCORE_FACTOR⟩, func,
            od.current_import_config⟩] }, lg⟩, func)
    ∧ REGEX_SCORE_FACTOR ≠ 0 := by
  have hpy : pyOrNum (some 0) REGEX_SCORE_FACTOR = REGEX_SCORE_FACTOR := by
    simp [pyOrNum]
  constructor
  · have base : match_regex re cs (some 0) func ⟨some od, lg⟩ =
        (⟨some { od with skills := od.skills ++
            [⟨SkillMatcher.regex
                ⟨re, cs, pyOrNum (some 0) REGEX_SCORE_FACTOR⟩, func,
              od.current_import_config⟩] }, lg⟩, func) := rfl
    rw [hpy] at base
    exact base
  · norm_num [REGEX_SCORE_FACTOR]
